import Mathlib

/-!
Shallow embedding of the CLI assistant bot (`src/main.py`): an interactive
phonebook with an input loop (`CliApp.run` / `CliApp.parse_command`), a
dispatcher (`AssistantBot.handle` with the `input_error` decorator) and a
contact store (`PhoneBook.verify_phone` / `add_contact` / `change_contact` /
`show_phone`).

Python exceptions are modelled by the inductive `PyErr`; fallible operations
return `Except`.  The phonebook dictionary is modelled as an association
list in insertion order, matching the insertion-order iteration of Python
dicts.  Operations that may raise after partial work carry the store at the
moment of the raise in the error, so "store unchanged on failure" is a real
theorem rather than a modelling convention.
-/

namespace CliBot

/-- The Python exception kinds that `main.py` raises or catches:
`TypeError` (wrong-arity call), `KeyError` (missing dict key) and
`ValueError` (domain errors and empty input). -/
inductive PyErr where
  | typeError (msg : String)
  | keyError (key : String)
  | valueError (msg : String)
deriving DecidableEq, Repr

/-- The phonebook dictionary `self.phones`: name/phone pairs in insertion
order, with unique keys maintained by the operations. -/
abbrev Book := List (String × String)

/-- `l` starts with at least `n` decimal digit characters: the semantics of
a regex run of n digits matching at the head of `l`. -/
def firstDigits : List Char → Nat → Bool
  | _, 0 => true
  | [], _ + 1 => false
  | c :: cs, n + 1 => c.isDigit && firstDigits cs n

/-- `re.match(r"(\+?\d{12}|\d{10})", phone)` as a Bool: the pattern must
match at the start of the string (prefix match, trailing characters are
allowed).  The first alternative is an optional leading plus sign followed
by twelve digits; the second is ten digits. -/
def phoneMatches (phone : String) : Bool :=
  (match phone.data with
   | '+' :: rest => firstDigits rest 12
   | cs => firstDigits cs 12) || firstDigits phone.data 10

/-- `PhoneBook.verify_phone`: raises `ValueError("Invalid phone format")`
unless the regex matches. -/
def verify_phone (phone : String) : Except PyErr Unit :=
  if phoneMatches phone then Except.ok () else
    Except.error (PyErr.valueError "Invalid phone format")

/-- Python dict lookup as an Option: used for `self.phones[name]` and for
`self.commands[command]`. -/
def dictGet {α : Type} : List (String × α) → String → Option α
  | [], _ => none
  | (n, p) :: rest, name => if n = name then some p else dictGet rest name

/-- Python dict assignment `self.phones[name] = phone` for a key that is
already present: the value is replaced, the insertion position is kept. -/
def dictUpdate : Book → String → String → Book
  | [], _, _ => []
  | (n, p) :: rest, name, phone =>
    if n = name then (n, phone) :: rest else (n, p) :: dictUpdate rest name phone

/-- The `ValueError` message of `PhoneBook.add_contact` on a duplicate name. -/
def duplicateNameMsg : String :=
  "This name is already in your phonebook. If you want to change the phone number, type 'change'."

/-- The `ValueError` message of `PhoneBook.change_contact` on a missing name. -/
def missingNameMsg : String :=
  "This name is not in your phonebook. If you want to add it, type 'add'."

/-- `PhoneBook.add_contact`: verifies the phone, then inserts the pair if the
name is not yet a key, else raises.  An error carries the store at the
moment of the raise (both raises happen before the single mutation). -/
def add_contact (book : Book) (name phone : String) : Except (PyErr × Book) Book :=
  match verify_phone phone with
  | Except.error e => Except.error (e, book)
  | Except.ok _ =>
    if (dictGet book name).isNone then Except.ok (book ++ [(name, phone)])
    else Except.error (PyErr.valueError duplicateNameMsg, book)

/-- `PhoneBook.change_contact`: verifies the phone, then overwrites the value
under `name` if present, else raises. -/
def change_contact (book : Book) (name phone : String) : Except (PyErr × Book) Book :=
  match verify_phone phone with
  | Except.error e => Except.error (e, book)
  | Except.ok _ =>
    if (dictGet book name).isSome then Except.ok (dictUpdate book name phone)
    else Except.error (PyErr.valueError missingNameMsg, book)

/-- One line of the `show_phone("all")` listing:
`f"Name: {name}, phone: {phone}\n"`. -/
def entryLine (e : String × String) : String :=
  "Name: " ++ e.1 ++ ", phone: " ++ e.2 ++ "\n"

/-- The accumulation loop of `show_phone("all")`:
`phonebook = ""` then `phonebook += f"Name: {name}, phone: {phone}\n"`
over the dict items in insertion order. -/
def showAllLoop (book : Book) : String :=
  book.foldl (fun acc e => acc ++ entryLine e) ""

/-- `PhoneBook.show_phone`: for `"all"`, the full listing (or the no-contacts
message on an empty store); otherwise the dict lookup `self.phones[name]`,
which raises `KeyError(name)` when absent. -/
def show_phone (book : Book) (name : String) : Except PyErr String :=
  if name = "all" then
    if book ≠ [] then Except.ok (showAllLoop book)
    else Except.ok "You do not have any contacts yet."
  else
    match dictGet book name with
    | some p => Except.ok p
    | none => Except.error (PyErr.keyError name)

/-- The conversion performed by the `input_error` decorator
(`AssistantBot.input_error`): each caught exception becomes a user-facing
string.  `str` of a Python `KeyError` is the repr of the key, i.e. the key
in single quotes. -/
def input_error_msg : PyErr → String
  | PyErr.typeError m => "Invalid input, some info is missing: " ++ m
  | PyErr.keyError k => "Sorry, no such command: '" ++ k ++ "'"
  | PyErr.valueError m => "ValueError: " ++ m

/-- Stands for the interpreter-generated `TypeError` text for a call with the
wrong number of positional arguments.  Its exact wording is produced by the
Python runtime, not by `main.py`; only its existence and its routing through
`input_error` matter to the claims. -/
def arityTypeErrorMsg (fname : String) (expected got : Nat) : String :=
  fname ++ "() positional argument count mismatch: expected " ++
    toString expected ++ ", got " ++ toString got

/-- The wrong-arity outcome of any decorated handler: the `TypeError` raised
by `func(*args)` is caught by the handler's own `input_error` wrapper. -/
def arityFailure (fname : String) (expected got : Nat) : Option String :=
  some (input_error_msg (PyErr.typeError (arityTypeErrorMsg fname expected got)))

/-- The decorated handler `AssistantBot.hello`: no parameters, constant
greeting. -/
def helloHandler (book : Book) (args : List String) : Option String × Book :=
  match args with
  | [] => (some "How can I help you?", book)
  | _ => (arityFailure "hello" 0 args.length, book)

/-- The decorated handler `AssistantBot.add`: two parameters, delegates to
`PhoneBook.add_contact`; returns `None` on success, and its `input_error`
wrapper converts a raised exception to a string. -/
def addHandler (book : Book) (args : List String) : Option String × Book :=
  match args with
  | [name, phone] =>
    match add_contact book name phone with
    | Except.ok book2 => (none, book2)
    | Except.error (e, book2) => (some (input_error_msg e), book2)
  | _ => (arityFailure "add" 2 args.length, book)

/-- The decorated handler `AssistantBot.change`: two parameters, delegates to
`PhoneBook.change_contact`. -/
def changeHandler (book : Book) (args : List String) : Option String × Book :=
  match args with
  | [name, phone] =>
    match change_contact book name phone with
    | Except.ok book2 => (none, book2)
    | Except.error (e, book2) => (some (input_error_msg e), book2)
  | _ => (arityFailure "change" 2 args.length, book)

/-- The decorated handler `AssistantBot.show` (bound to both `phone` and
`show`): one parameter, delegates to `PhoneBook.show_phone`; a raised
`KeyError` is converted by the wrapper. -/
def showHandler (book : Book) (args : List String) : Option String × Book :=
  match args with
  | [name] =>
    match show_phone book name with
    | Except.ok s => (some s, book)
    | Except.error e => (some (input_error_msg e), book)
  | _ => (arityFailure "show" 1 args.length, book)

/-- The command dictionary `self.commands` of `AssistantBot.__init__`: the
command name mapped to its decorated handler; `phone` and `show` share the
`show` handler. -/
def commandHandlers : List (String × (Book → List String → Option String × Book)) :=
  [("hello", helloHandler), ("add", addHandler), ("change", changeHandler),
   ("phone", showHandler), ("show", showHandler)]

/-- The command dictionary keys of `AssistantBot.__init__`. -/
def knownCommands : List String := ["hello", "add", "change", "phone", "show"]

/-- Required positional argument count of each handler, read off the
parameter lists of `hello`, `add`, `change` and `show`. -/
def arityOf : String → Nat
  | "hello" => 0
  | "add" => 2
  | "change" => 2
  | _ => 1

/-- The Python function name that appears in a wrong-arity `TypeError` for
each command: both `phone` and `show` are bound to the method `show`. -/
def handlerFname : String → String
  | "phone" => "show"
  | c => c

/-- `AssistantBot.handle`: looks the command up in the dictionary
(`self.commands[command]`) and calls the (already decorated) handler with
the arguments unpacked.  A missing key raises `KeyError(command)`, caught by
`handle`'s own `input_error` wrapper.  The result is the printed message (or
`None`) together with the phonebook state afterwards; no exception ever
escapes. -/
def handle (book : Book) (command : String) (args : List String) :
    Option String × Book :=
  match dictGet commandHandlers command with
  | some h => h book args
  | none => (some (input_error_msg (PyErr.keyError command)), book)

/-- Python `str.lower()`: lowercase every character. -/
def pyLower (s : String) : String :=
  String.mk (s.data.map Char.toLower)

/-- Worker for `pySplit`: walk the characters, accumulating the current word
reversed; whitespace ends a word, empty pieces are dropped. -/
def pySplitAux : List Char → List Char → List String
  | [], [] => []
  | [], w => [String.mk w.reverse]
  | c :: cs, w =>
    if c.isWhitespace then
      match w with
      | [] => pySplitAux cs []
      | _ => String.mk w.reverse :: pySplitAux cs []
    else pySplitAux cs (c :: w)

/-- Python `str.split()` with no separator: split on whitespace runs,
discarding empty pieces. -/
def pySplit (s : String) : List String :=
  pySplitAux s.data []

/-- `CliApp.parse_command`: raises `ValueError()` when the input has no
tokens, else returns the first token and the remaining tokens. -/
def parse_command (userInput : String) : Except PyErr (String × List String) :=
  match pySplit userInput with
  | [] => Except.error (PyErr.valueError "")
  | c :: rest => Except.ok (c, rest)

/-- Outcome of one iteration of the `CliApp.run` loop on one input line. -/
inductive StepResult where
  | terminate (farewell : String)
  | inputError
  | forward (command : String) (args : List String)
deriving DecidableEq, Repr

/-- The body of the `CliApp.run` loop after lowercasing: parse the line, then
break with the farewell when the command token is one of the stop words,
else forward the command and arguments to the dispatcher. -/
def processLine (lowered : String) : StepResult :=
  match parse_command lowered with
  | Except.error _ => StepResult.inputError
  | Except.ok (command, args) =>
    if command ∈ ["good bye", "close", "exit"] then StepResult.terminate "Good bye!"
    else StepResult.forward command args

/-- One iteration of `CliApp.run` on the raw input line:
`self.parse_command(input().lower())` followed by the stop-word test. -/
def runStep (line : String) : StepResult :=
  processLine (pyLower line)

/-- Every character of `d` is a decimal digit. -/
def DigitsOnly (d : List Char) : Prop := ∀ c ∈ d, c.isDigit = true

/-- The phone pattern as the specification words it: the string begins with
an optional plus sign followed by twelve digits, or begins with ten digits;
anything may follow the matched part. -/
def SpecPhonePattern (s : String) : Prop :=
  (∃ d r, s.data = '+' :: (d ++ r) ∧ d.length = 12 ∧ DigitsOnly d) ∨
  (∃ d r, s.data = d ++ r ∧ d.length = 12 ∧ DigitsOnly d) ∨
  (∃ d r, s.data = d ++ r ∧ d.length = 10 ∧ DigitsOnly d)

/-- The stores reachable from the empty store (the `PhoneBook.__init__`
state) through successful `add_contact` and `change_contact` calls. -/
inductive Reachable : Book → Prop where
  | empty : Reachable []
  | add (b : Book) (n p : String) (c : Book) :
      Reachable b → add_contact b n p = Except.ok c → Reachable c
  | change (b : Book) (n p : String) (c : Book) :
      Reachable b → change_contact b n p = Except.ok c → Reachable c

instance {ε α : Type} [DecidableEq ε] [DecidableEq α] : DecidableEq (Except ε α) :=
  fun a b =>
    match a, b with
    | Except.ok x, Except.ok y =>
      if h : x = y then isTrue (h ▸ rfl)
      else isFalse (fun hh => h (Except.ok.inj hh))
    | Except.error x, Except.error y =>
      if h : x = y then isTrue (h ▸ rfl)
      else isFalse (fun hh => h (Except.error.inj hh))
    | Except.ok _, Except.error _ => isFalse (fun hh => Except.noConfusion hh)
    | Except.error _, Except.ok _ => isFalse (fun hh => Except.noConfusion hh)

/-! ### Lemmas about the contact store -/

theorem verify_phone_ok (p : String) (h : phoneMatches p = true) :
    verify_phone p = Except.ok () := by
  simp [verify_phone, h]

theorem verify_phone_fail (p : String) (h : phoneMatches p = false) :
    verify_phone p = Except.error (PyErr.valueError "Invalid phone format") := by
  simp [verify_phone, h]

theorem dictGet_append_self (b : Book) (n p : String) (h : dictGet b n = none) :
    dictGet (b ++ [(n, p)]) n = some p := by
  induction b with
  | nil => simp [dictGet]
  | cons hd tl ih =>
    obtain ⟨k, v⟩ := hd
    by_cases hk : k = n
    · simp [dictGet, hk] at h
    · simp only [List.cons_append, dictGet, if_neg hk] at h ⊢
      exact ih h

theorem dictGet_dictUpdate_self (b : Book) (n p : String)
    (h : (dictGet b n).isSome = true) :
    dictGet (dictUpdate b n p) n = some p := by
  induction b with
  | nil => simp [dictGet] at h
  | cons hd tl ih =>
    obtain ⟨k, v⟩ := hd
    by_cases hk : k = n
    · simp [dictUpdate, dictGet, hk]
    · simp only [dictGet, if_neg hk] at h
      simp only [dictUpdate, if_neg hk, dictGet]
      exact ih h

theorem mem_dictUpdate (b : Book) (n p : String) (pr : String × String)
    (h : pr ∈ dictUpdate b n p) : pr ∈ b ∨ pr.2 = p := by
  induction b with
  | nil => simp [dictUpdate] at h
  | cons hd tl ih =>
    obtain ⟨k, v⟩ := hd
    by_cases hk : k = n
    · rw [dictUpdate, if_pos hk] at h
      rcases List.mem_cons.mp h with h | h
      · right; rw [h]
      · left; exact List.mem_cons_of_mem _ h
    · rw [dictUpdate, if_neg hk] at h
      rcases List.mem_cons.mp h with h | h
      · left; rw [h]; exact List.mem_cons_self _ _
      · rcases ih h with h2 | h2
        · left; exact List.mem_cons_of_mem _ h2
        · right; exact h2

theorem dictGet_mem (b : Book) (n p : String) (h : dictGet b n = some p) :
    (n, p) ∈ b := by
  induction b with
  | nil => simp [dictGet] at h
  | cons hd tl ih =>
    obtain ⟨k, v⟩ := hd
    by_cases hk : k = n
    · rw [dictGet, if_pos hk] at h
      injection h with h
      rw [← hk, ← h]
      exact List.mem_cons_self _ _
    · rw [dictGet, if_neg hk] at h
      exact List.mem_cons_of_mem _ (ih h)

theorem add_contact_invalid (book : Book) (name phone : String)
    (h : phoneMatches phone = false) :
    add_contact book name phone =
      Except.error (PyErr.valueError "Invalid phone format", book) := by
  unfold add_contact
  rw [verify_phone_fail _ h]

theorem add_contact_dup (book : Book) (name phone : String)
    (h1 : phoneMatches phone = true) (h2 : (dictGet book name).isSome = true) :
    add_contact book name phone =
      Except.error (PyErr.valueError duplicateNameMsg, book) := by
  unfold add_contact
  rw [verify_phone_ok _ h1]
  cases hl : dictGet book name with
  | none => rw [hl] at h2; simp at h2
  | some v => rfl

theorem add_contact_inserts (book : Book) (name phone : String)
    (h1 : phoneMatches phone = true) (h2 : dictGet book name = none) :
    add_contact book name phone = Except.ok (book ++ [(name, phone)]) := by
  unfold add_contact
  rw [verify_phone_ok _ h1, h2]
  rfl

theorem add_contact_ok_elim (book : Book) (name phone : String) (b2 : Book)
    (h : add_contact book name phone = Except.ok b2) :
    phoneMatches phone = true ∧ dictGet book name = none ∧
      b2 = book ++ [(name, phone)] := by
  unfold add_contact at h
  cases hpm : phoneMatches phone with
  | false => rw [verify_phone_fail _ hpm] at h; exact absurd h (by simp)
  | true =>
    rw [verify_phone_ok _ hpm] at h
    cases hl : dictGet book name with
    | none => rw [hl] at h; simp at h; exact ⟨rfl, rfl, h.symm⟩
    | some v => rw [hl] at h; simp at h

theorem add_contact_error_book (book : Book) (name phone : String)
    (e : PyErr) (b2 : Book)
    (h : add_contact book name phone = Except.error (e, b2)) : b2 = book := by
  unfold add_contact at h
  cases hpm : phoneMatches phone with
  | false =>
    rw [verify_phone_fail _ hpm] at h
    simp at h
    exact h.2.symm
  | true =>
    rw [verify_phone_ok _ hpm] at h
    cases hl : dictGet book name with
    | none => rw [hl] at h; simp at h
    | some v => rw [hl] at h; simp at h; exact h.2.symm

theorem change_contact_invalid (book : Book) (name phone : String)
    (h : phoneMatches phone = false) :
    change_contact book name phone =
      Except.error (PyErr.valueError "Invalid phone format", book) := by
  unfold change_contact
  rw [verify_phone_fail _ h]

theorem change_contact_missing (book : Book) (name phone : String)
    (h1 : phoneMatches phone = true) (h2 : dictGet book name = none) :
    change_contact book name phone =
      Except.error (PyErr.valueError missingNameMsg, book) := by
  unfold change_contact
  rw [verify_phone_ok _ h1, h2]
  rfl

theorem change_contact_updates (book : Book) (name phone : String)
    (h1 : phoneMatches phone = true) (h2 : (dictGet book name).isSome = true) :
    change_contact book name phone = Except.ok (dictUpdate book name phone) := by
  unfold change_contact
  rw [verify_phone_ok _ h1, h2]
  rfl

theorem change_contact_ok_elim (book : Book) (name phone : String) (b2 : Book)
    (h : change_contact book name phone = Except.ok b2) :
    phoneMatches phone = true ∧ (dictGet book name).isSome = true ∧
      b2 = dictUpdate book name phone := by
  unfold change_contact at h
  cases hpm : phoneMatches phone with
  | false => rw [verify_phone_fail _ hpm] at h; exact absurd h (by simp)
  | true =>
    rw [verify_phone_ok _ hpm] at h
    cases hl : dictGet book name with
    | none => rw [hl] at h; simp at h
    | some v => rw [hl] at h; simp at h; exact ⟨rfl, rfl, h.symm⟩

theorem change_contact_error_book (book : Book) (name phone : String)
    (e : PyErr) (b2 : Book)
    (h : change_contact book name phone = Except.error (e, b2)) : b2 = book := by
  unfold change_contact at h
  cases hpm : phoneMatches phone with
  | false =>
    rw [verify_phone_fail _ hpm] at h
    simp at h
    exact h.2.symm
  | true =>
    rw [verify_phone_ok _ hpm] at h
    cases hl : dictGet book name with
    | none => rw [hl] at h; simp at h; exact h.2.symm
    | some v => rw [hl] at h; simp at h

/-! ### Lemmas about the listing string -/

theorem str_foldl_append (l : List String) (acc : String) :
    l.foldl (fun r s => r ++ s) acc = acc ++ String.join l := by
  induction l generalizing acc with
  | nil =>
    show acc = acc ++ String.join []
    rw [show String.join [] = "" from rfl, String.append_empty]
  | cons x xs ih =>
    have h1 : (x :: xs).foldl (fun r s => r ++ s) acc =
        (acc ++ x) ++ String.join xs := by
      rw [List.foldl_cons]
      exact ih (acc ++ x)
    have h2 : String.join (x :: xs) = x ++ String.join xs := by
      show (x :: xs).foldl (fun r s => r ++ s) "" = x ++ String.join xs
      rw [List.foldl_cons]
      rw [ih ("" ++ x), String.empty_append]
    rw [h1, h2, String.append_assoc]

theorem join_cons (x : String) (xs : List String) :
    String.join (x :: xs) = x ++ String.join xs := by
  show (x :: xs).foldl (fun r s => r ++ s) "" = x ++ String.join xs
  rw [List.foldl_cons, str_foldl_append xs ("" ++ x), String.empty_append]

theorem showAllLoop_eq_join (book : Book) :
    showAllLoop book = String.join (book.map entryLine) := by
  unfold showAllLoop
  rw [← List.foldl_map, str_foldl_append, String.empty_append]

theorem length_le_join (l : List String) (x : String) (h : x ∈ l) :
    x.length ≤ (String.join l).length := by
  induction l with
  | nil => simp at h
  | cons y ys ih =>
    rw [join_cons, String.length_append]
    rcases List.mem_cons.mp h with h | h
    · rw [h]; exact Nat.le_add_right _ _
    · exact Nat.le_trans (ih h) (Nat.le_add_left _ _)

theorem entryLine_length_gt (e : String × String) :
    e.2.length < (entryLine e).length := by
  unfold entryLine
  rw [String.length_append, String.length_append, String.length_append,
    String.length_append]
  rw [show ("Name: " : String).length = 6 from rfl,
    show (", phone: " : String).length = 9 from rfl,
    show ("\n" : String).length = 1 from rfl]
  omega

/-! ### Lemmas about the dispatcher -/

theorem helloHandler_arity (book : Book) (args : List String)
    (h : args.length ≠ 0) :
    helloHandler book args = (arityFailure "hello" 0 args.length, book) := by
  cases args with
  | nil => exact absurd rfl h
  | cons a t => rfl

theorem addHandler_arity (book : Book) (args : List String)
    (h : args.length ≠ 2) :
    addHandler book args = (arityFailure "add" 2 args.length, book) := by
  cases args with
  | nil => rfl
  | cons a t =>
    cases t with
    | nil => rfl
    | cons b t2 =>
      cases t2 with
      | nil => exact absurd rfl h
      | cons c t3 => rfl

theorem changeHandler_arity (book : Book) (args : List String)
    (h : args.length ≠ 2) :
    changeHandler book args = (arityFailure "change" 2 args.length, book) := by
  cases args with
  | nil => rfl
  | cons a t =>
    cases t with
    | nil => rfl
    | cons b t2 =>
      cases t2 with
      | nil => exact absurd rfl h
      | cons c t3 => rfl

theorem showHandler_arity (book : Book) (args : List String)
    (h : args.length ≠ 1) :
    showHandler book args = (arityFailure "show" 1 args.length, book) := by
  cases args with
  | nil => rfl
  | cons a t =>
    cases t with
    | nil => exact absurd rfl h
    | cons b t2 => rfl

theorem dictGet_commands_none (command : String) (h : command ∉ knownCommands) :
    dictGet commandHandlers command = none := by
  simp only [knownCommands, List.mem_cons, List.not_mem_nil, or_false,
    not_or] at h
  obtain ⟨h1, h2, h3, h4, h5⟩ := h
  have g1 : ("hello" : String) ≠ command := fun hh => h1 hh.symm
  have g2 : ("add" : String) ≠ command := fun hh => h2 hh.symm
  have g3 : ("change" : String) ≠ command := fun hh => h3 hh.symm
  have g4 : ("phone" : String) ≠ command := fun hh => h4 hh.symm
  have g5 : ("show" : String) ≠ command := fun hh => h5 hh.symm
  simp [commandHandlers, dictGet, g1, g2, g3, g4, g5]

/-! ### The regex pattern, spec side -/

theorem firstDigits_iff (n : Nat) (l : List Char) :
    firstDigits l n = true ↔
      ∃ d r, l = d ++ r ∧ d.length = n ∧ DigitsOnly d := by
  induction n generalizing l with
  | zero =>
    constructor
    · intro _
      exact ⟨[], l, rfl, rfl, fun c hc => absurd hc (List.not_mem_nil c)⟩
    · intro _
      cases l <;> rfl
  | succ n ih =>
    cases l with
    | nil =>
      constructor
      · intro h; simp [firstDigits] at h
      · rintro ⟨d, r, hdr, hlen, _⟩
        have hl := congrArg List.length hdr
        rw [List.length_append, hlen] at hl
        simp only [List.length_nil] at hl
        omega
    | cons c cs =>
      constructor
      · intro h
        rw [show firstDigits (c :: cs) (n + 1) =
            (c.isDigit && firstDigits cs n) from rfl, Bool.and_eq_true] at h
        obtain ⟨h1, h2⟩ := h
        obtain ⟨d, r, hdr, hlen, hdig⟩ := (ih cs).mp h2
        refine ⟨c :: d, r, ?_, ?_, ?_⟩
        · rw [List.cons_append, hdr]
        · rw [List.length_cons, hlen]
        · intro x hx
          rcases List.mem_cons.mp hx with hx | hx
          · rw [hx]; exact h1
          · exact hdig x hx
      · rintro ⟨d, r, hdr, hlen, hdig⟩
        cases d with
        | nil => simp at hlen
        | cons a d2 =>
          rw [List.cons_append] at hdr
          injection hdr with hca hcs
          rw [show firstDigits (c :: cs) (n + 1) =
            (c.isDigit && firstDigits cs n) from rfl, Bool.and_eq_true]
          constructor
          · rw [hca]; exact hdig a (List.mem_cons_self _ _)
          · refine (ih cs).mpr ⟨d2, r, hcs, ?_, ?_⟩
            · rw [List.length_cons] at hlen; omega
            · exact fun x hx => hdig x (List.mem_cons_of_mem _ hx)

theorem plus_digits_iff (l : List Char) (n : Nat) :
    (∃ d r, l = '+' :: (d ++ r) ∧ d.length = n ∧ DigitsOnly d) ↔
      (∃ cs, l = '+' :: cs ∧ firstDigits cs n = true) := by
  constructor
  · rintro ⟨d, r, hdr, hlen, hdig⟩
    exact ⟨d ++ r, hdr, (firstDigits_iff n (d ++ r)).mpr ⟨d, r, rfl, hlen, hdig⟩⟩
  · rintro ⟨cs, hcs, hfd⟩
    obtain ⟨d, r, hdr, hlen, hdig⟩ := (firstDigits_iff n cs).mp hfd
    exact ⟨d, r, by rw [hcs, hdr], hlen, hdig⟩

theorem specPattern_iff (s : String) :
    SpecPhonePattern s ↔ phoneMatches s = true := by
  unfold SpecPhonePattern
  rw [plus_digits_iff, ← firstDigits_iff, ← firstDigits_iff]
  unfold phoneMatches
  rw [Bool.or_eq_true]
  cases hdata : s.data with
  | nil =>
    constructor
    · rintro (⟨cs, hcs, _⟩ | h | h)
      · exact absurd hcs (by simp)
      · simp [firstDigits] at h
      · simp [firstDigits] at h
    · rintro (h | h)
      · simp [firstDigits] at h
      · simp [firstDigits] at h
  | cons c cs =>
    by_cases hc : c = '+'
    · subst hc
      have hplus : ('+' : Char).isDigit = false := by decide
      have h12 : firstDigits ('+' :: cs) 12 = false := by
        rw [show firstDigits ('+' :: cs) 12 =
          (('+' : Char).isDigit && firstDigits cs 11) from rfl, hplus]
        rfl
      have h10 : firstDigits ('+' :: cs) 10 = false := by
        rw [show firstDigits ('+' :: cs) 10 =
          (('+' : Char).isDigit && firstDigits cs 9) from rfl, hplus]
        rfl
      rw [h12, h10]
      constructor
      · rintro (⟨cs2, hcs2, hfd⟩ | h | h)
        · injection hcs2 with _ hcc
          left
          rw [hcc]
          exact hfd
        · exact absurd h (by simp)
        · exact absurd h (by simp)
      · rintro (h | h)
        · exact Or.inl ⟨cs, rfl, h⟩
        · exact absurd h (by simp)
    · have hmatch : (match (c :: cs : List Char) with
          | '+' :: rest => firstDigits rest 12
          | cs => firstDigits cs 12) = firstDigits (c :: cs) 12 := by
        split
        · rename_i heq
          injection heq with h1 h2
          exact absurd h1 hc
        · rfl
      rw [hmatch]
      constructor
      · rintro (⟨cs2, hcs2, _⟩ | h | h)
        · injection hcs2 with h1 _
          exact absurd h1 hc
        · exact Or.inl h
        · exact Or.inr h
      · rintro (h | h)
        · exact Or.inr (Or.inl h)
        · exact Or.inr (Or.inr h)

/-! ### The claims -/

/-- Claim C1, counterexample: on the empty store, looking up the absent
contact `bob` raises a plain `KeyError` — the very error kind the dispatcher
maps to the unknown-command message — and the dispatcher answers with
`Sorry, no such command: 'bob'`, identical in form to the answer for the
unrecognized command `frobnicate`; there is no distinct unknown-name error
and no contact-specific wording. -/
theorem C1_counterexample :
    show_phone [] "bob" = Except.error (PyErr.keyError "bob") ∧
    handle [] "show" ["bob"] = (some "Sorry, no such command: 'bob'", []) ∧
    handle [] "frobnicate" [] =
      (some "Sorry, no such command: 'frobnicate'", []) :=
  ⟨rfl, rfl, rfl⟩

/-- Claim C1, amended: for every store and every name other than `"all"`
that is not a key, `show_phone(name)` fails with `KeyError(name)` — the same
error kind the dispatcher uses for unknown commands, not a distinct domain
error — and the dispatcher (through both the `show` and the `phone`
commands) converts it to the string `Sorry, no such command: '{name}'`,
which does name the missing contact but with the unknown-command wording. -/
theorem C1_show_phone_missing (book : Book) (name : String)
    (h1 : name ≠ "all") (h2 : dictGet book name = none) :
    show_phone book name = Except.error (PyErr.keyError name) ∧
    handle book "show" [name] =
      (some ("Sorry, no such command: '" ++ name ++ "'"), book) ∧
    handle book "phone" [name] =
      (some ("Sorry, no such command: '" ++ name ++ "'"), book) := by
  have hs : show_phone book name = Except.error (PyErr.keyError name) := by
    unfold show_phone
    rw [if_neg h1, h2]
  refine ⟨hs, ?_, ?_⟩
  · show showHandler book [name] = _
    simp only [showHandler]
    rw [hs]
    rfl
  · show showHandler book [name] = _
    simp only [showHandler]
    rw [hs]
    rfl

/-- Witness for C1: concrete instance with a one-contact store and the
absent name `carol`. -/
theorem C1_witness :
    show_phone [("alice", "1234567890")] "carol" =
      Except.error (PyErr.keyError "carol") ∧
    handle [("alice", "1234567890")] "show" ["carol"] =
      (some ("Sorry, no such command: '" ++ "carol" ++ "'"),
        [("alice", "1234567890")]) ∧
    handle [("alice", "1234567890")] "phone" ["carol"] =
      (some ("Sorry, no such command: '" ++ "carol" ++ "'"),
        [("alice", "1234567890")]) :=
  C1_show_phone_missing [("alice", "1234567890")] "carol" (by decide) (by decide)

/-- Claim C2, counterexample: the two-word line `good bye` does not
terminate the loop; it is split into command `good` with argument `bye` and
forwarded to the dispatcher, because the stop-word test compares only the
first whitespace token. -/
theorem C2_counterexample :
    runStep "good bye" = StepResult.forward "good" ["bye"] ∧
    runStep "good bye" ≠ StepResult.terminate "Good bye!" :=
  ⟨by decide, by decide⟩

/-- Claim C2, amended: every input line whose lowercased form equals
`close` or `exit` prints the farewell and terminates the loop; the two-word
line `good bye` is instead forwarded to the dispatcher as command `good`
with argument list `["bye"]`, since the stop-word comparison sees only the
first whitespace-delimited token. -/
theorem C2_terminate_spec :
    (∀ line : String, pyLower line = "close" ∨ pyLower line = "exit" →
      runStep line = StepResult.terminate "Good bye!") ∧
    runStep "good bye" = StepResult.forward "good" ["bye"] := by
  constructor
  · intro line h
    unfold runStep
    rcases h with h | h <;> rw [h] <;> decide
  · decide

/-- Witness for C2: the mixed-case lines `CLOSE` and `Exit` terminate. -/
theorem C2_witness :
    runStep "CLOSE" = StepResult.terminate "Good bye!" ∧
    runStep "Exit" = StepResult.terminate "Good bye!" :=
  ⟨C2_terminate_spec.1 "CLOSE" (Or.inl (by decide)),
   C2_terminate_spec.1 "Exit" (Or.inr (by decide))⟩

/-- Claim C3: `verify_phone` succeeds exactly when the string begins with an
optional plus sign followed by twelve digits or begins with ten digits
(prefix match: trailing characters after the matched part are allowed), and
for every string matching neither pattern at the start it fails with the
invalid-phone-format `ValueError`. -/
theorem C3_verify_phone_pattern (phone : String) :
    (verify_phone phone = Except.ok () ↔ SpecPhonePattern phone) ∧
    (¬ SpecPhonePattern phone →
      verify_phone phone =
        Except.error (PyErr.valueError "Invalid phone format")) := by
  constructor
  · rw [specPattern_iff]
    unfold verify_phone
    cases h : phoneMatches phone
    · simp [h]
    · simp [h]
  · intro h
    rw [specPattern_iff] at h
    cases hb : phoneMatches phone with
    | true => exact absurd hb h
    | false => exact verify_phone_fail phone hb

/-- Witness for C3: a ten-digit string and a plus-twelve-digit string with a
trailing suffix are accepted; a five-digit string is rejected with the
invalid-format error. -/
theorem C3_witness :
    verify_phone "1234567890" = Except.ok () ∧
    verify_phone "+123456789012xyz" = Except.ok () ∧
    verify_phone "12345" =
      Except.error (PyErr.valueError "Invalid phone format") :=
  ⟨(C3_verify_phone_pattern "1234567890").1.mpr
      ((specPattern_iff "1234567890").mpr (by decide)),
   (C3_verify_phone_pattern "+123456789012xyz").1.mpr
      ((specPattern_iff "+123456789012xyz").mpr (by decide)),
   (C3_verify_phone_pattern "12345").2
      (fun hs => absurd ((specPattern_iff "12345").mp hs) (by decide))⟩

/-- Claim C4: `add_contact` validates the phone first (an invalid phone
fails with the invalid-format error even if the name is also a duplicate),
fails with the duplicate-name `ValueError` when the name is already a key,
inserts the pair at the end otherwise, and on any failure leaves the store
exactly unchanged. -/
theorem C4_add_contact_spec (book : Book) (name phone : String) :
    (phoneMatches phone = false →
      add_contact book name phone =
        Except.error (PyErr.valueError "Invalid phone format", book)) ∧
    (phoneMatches phone = true → (dictGet book name).isSome = true →
      add_contact book name phone =
        Except.error (PyErr.valueError duplicateNameMsg, book)) ∧
    (phoneMatches phone = true → dictGet book name = none →
      add_contact book name phone = Except.ok (book ++ [(name, phone)])) ∧
    (∀ e b2, add_contact book name phone = Except.error (e, b2) → b2 = book) :=
  ⟨add_contact_invalid book name phone,
   add_contact_dup book name phone,
   add_contact_inserts book name phone,
   fun e b2 h => add_contact_error_book book name phone e b2 h⟩

/-- Witness for C4: the duplicate `alice`, an invalid phone, and a
successful insertion, all concrete. -/
theorem C4_witness :
    add_contact [("alice", "1234567890")] "alice" "0000000000" =
      Except.error (PyErr.valueError duplicateNameMsg,
        [("alice", "1234567890")]) ∧
    add_contact [] "bob" "12b" =
      Except.error (PyErr.valueError "Invalid phone format", []) ∧
    add_contact [] "alice" "1234567890" = Except.ok [("alice", "1234567890")] :=
  ⟨(C4_add_contact_spec [("alice", "1234567890")] "alice" "0000000000").2.1
      rfl rfl,
   (C4_add_contact_spec [] "bob" "12b").1 rfl,
   (C4_add_contact_spec [] "alice" "1234567890").2.2.1 rfl rfl⟩

/-- Claim C5: `change_contact` validates the phone first, fails with the
missing-name `ValueError` when the name is not a key, overwrites the value
stored under the name otherwise (so a subsequent lookup returns the new
phone), and on any failure leaves the store exactly unchanged. -/
theorem C5_change_contact_spec (book : Book) (name phone : String) :
    (phoneMatches phone = false →
      change_contact book name phone =
        Except.error (PyErr.valueError "Invalid phone format", book)) ∧
    (phoneMatches phone = true → dictGet book name = none →
      change_contact book name phone =
        Except.error (PyErr.valueError missingNameMsg, book)) ∧
    (phoneMatches phone = true → (dictGet book name).isSome = true →
      change_contact book name phone =
          Except.ok (dictUpdate book name phone) ∧
        dictGet (dictUpdate book name phone) name = some phone) ∧
    (∀ e b2, change_contact book name phone = Except.error (e, b2) →
      b2 = book) :=
  ⟨change_contact_invalid book name phone,
   change_contact_missing book name phone,
   fun h1 h2 => ⟨change_contact_updates book name phone h1 h2,
     dictGet_dictUpdate_self book name phone h2⟩,
   fun e b2 h => change_contact_error_book book name phone e b2 h⟩

/-- Witness for C5: changing the absent `bob` fails with the missing-name
error; changing the present `alice` overwrites her phone. -/
theorem C5_witness :
    change_contact [] "bob" "+123456789012" =
      Except.error (PyErr.valueError missingNameMsg, []) ∧
    (change_contact [("alice", "1234567890")] "alice" "+123456789012" =
        Except.ok [("alice", "+123456789012")] ∧
      dictGet (dictUpdate [("alice", "1234567890")] "alice" "+123456789012")
          "alice" = some "+123456789012") :=
  ⟨(C5_change_contact_spec [] "bob" "+123456789012").2.1 rfl rfl,
   (C5_change_contact_spec [("alice", "1234567890")] "alice"
      "+123456789012").2.2.1 rfl rfl⟩

/-- Claim C6: the dispatcher never lets a failure escape as a crash: an
unrecognized command is answered with the descriptive unknown-command
string, and a recognized command called with the wrong number of arguments
is answered with the arity-violation string built from the caught
`TypeError`; in both cases the store is unchanged and the result is an
ordinary value. -/
theorem C6_handle_total (book : Book) (command : String) (args : List String) :
    (command ∉ knownCommands →
      handle book command args =
        (some ("Sorry, no such command: '" ++ command ++ "'"), book)) ∧
    (command ∈ knownCommands → args.length ≠ arityOf command →
      handle book command args =
        (arityFailure (handlerFname command) (arityOf command) args.length,
          book)) := by
  constructor
  · intro h
    unfold handle
    rw [dictGet_commands_none command h]
    rfl
  · intro h harity
    simp only [knownCommands, List.mem_cons, List.not_mem_nil, or_false] at h
    rcases h with h | h | h | h | h <;> subst h
    · show helloHandler book args = _
      exact helloHandler_arity book args harity
    · show addHandler book args = _
      exact addHandler_arity book args harity
    · show changeHandler book args = _
      exact changeHandler_arity book args harity
    · show showHandler book args = _
      exact showHandler_arity book args harity
    · show showHandler book args = _
      exact showHandler_arity book args harity

/-- Witness for C6: the unknown command `foo` and the command `add` with a
single argument, both on the empty store. -/
theorem C6_witness :
    handle [] "foo" [] =
      (some ("Sorry, no such command: '" ++ "foo" ++ "'"), []) ∧
    handle [] "add" ["alice"] = (arityFailure "add" 2 1, []) :=
  ⟨(C6_handle_total [] "foo" []).1 (by decide),
   (C6_handle_total [] "add" ["alice"]).2 (by decide) (by decide)⟩

/-- Claim C7: `show_phone("all")` returns the no-contacts message on the
empty store, and otherwise the concatenation, in insertion order, of one
line `Name: {name}, phone: {phone}` (newline-terminated) per contact. -/
theorem C7_show_all (book : Book) :
    (book = [] →
      show_phone book "all" = Except.ok "You do not have any contacts yet.") ∧
    (book ≠ [] → show_phone book "all" =
      Except.ok (String.join (book.map
        (fun e => "Name: " ++ e.1 ++ ", phone: " ++ e.2 ++ "\n")))) := by
  constructor
  · intro h
    subst h
    rfl
  · intro h
    unfold show_phone
    rw [if_pos rfl, if_pos h, showAllLoop_eq_join]
    rfl

/-- Witness for C7: the empty store, and the store with `alice` then `bob`
listed in insertion order. -/
theorem C7_witness :
    show_phone [] "all" = Except.ok "You do not have any contacts yet." ∧
    show_phone [("alice", "1234567890"), ("bob", "0123456789")] "all" =
      Except.ok (String.join
        ([("alice", "1234567890"), ("bob", "0123456789")].map
          (fun e => "Name: " ++ e.1 ++ ", phone: " ++ e.2 ++ "\n"))) :=
  ⟨(C7_show_all []).1 rfl,
   (C7_show_all [("alice", "1234567890"), ("bob", "0123456789")]).2
      (by decide)⟩

/-- Claim C8: for every name other than `"all"` and every phone the
validator accepts, a successful `add_contact(name, phone)` followed by
`show_phone(name)` returns exactly the phone. -/
theorem C8_add_show_roundtrip (book : Book) (name phone : String) (b2 : Book)
    (h1 : name ≠ "all") (h2 : add_contact book name phone = Except.ok b2) :
    show_phone b2 name = Except.ok phone := by
  obtain ⟨hpm, hl, hb⟩ := add_contact_ok_elim book name phone b2 h2
  subst hb
  unfold show_phone
  rw [if_neg h1, dictGet_append_self book name phone hl]

/-- Witness for C8: adding `alice` to the empty store and looking her up. -/
theorem C8_witness :
    show_phone [("alice", "1234567890")] "alice" = Except.ok "1234567890" :=
  C8_add_show_roundtrip [] "alice" "1234567890" [("alice", "1234567890")]
    (by decide) (by decide)

/-- Claim C9: in every store reachable from the empty store through
`add_contact` and `change_contact`, every stored phone value passes
`verify_phone`, and an insertion under an already-present key never
succeeds. -/
theorem C9_reachable_invariant (b : Book) (h : Reachable b) :
    (∀ pr ∈ b, verify_phone pr.2 = Except.ok ()) ∧
    (∀ n p c, (dictGet b n).isSome = true →
      add_contact b n p ≠ Except.ok c) := by
  refine ⟨?_, ?_⟩
  · induction h with
    | empty =>
      intro pr hpr
      exact absurd hpr (List.not_mem_nil pr)
    | add b n p c hb hok ih =>
      obtain ⟨hpm, hl, hc⟩ := add_contact_ok_elim b n p c hok
      subst hc
      intro pr hpr
      rcases List.mem_append.mp hpr with hpr | hpr
      · exact ih pr hpr
      · rcases List.mem_cons.mp hpr with hpr | hpr
        · rw [hpr]
          exact verify_phone_ok p hpm
        · exact absurd hpr (List.not_mem_nil pr)
    | change b n p c hb hok ih =>
      obtain ⟨hpm, hs, hc⟩ := change_contact_ok_elim b n p c hok
      subst hc
      intro pr hpr
      rcases mem_dictUpdate b n p pr hpr with hpr | hpr
      · exact ih pr hpr
      · rw [hpr]
        exact verify_phone_ok p hpm
  · intro n p c hs hok
    obtain ⟨_, hl, _⟩ := add_contact_ok_elim b n p c hok
    rw [hl] at hs
    simp at hs

/-- Witness for C9: the store reached by adding `alice` to the empty store
has a verified phone value. -/
theorem C9_witness : verify_phone "1234567890" = Except.ok () :=
  (C9_reachable_invariant [("alice", "1234567890")]
      (Reachable.add [] "alice" "1234567890" [("alice", "1234567890")]
        Reachable.empty (by decide))).1
    ("alice", "1234567890") (by decide)

/-- Claim C10 (implicit): a contact literally named `all` can be added to
the store like any other name, but `show_phone("all")` always takes the
listing branch — the full listing or the empty-store message — so the phone
stored under the key `all` is never returned as an individual lookup
result (the listing is strictly longer than that phone, so the result
cannot even coincide with it). -/
theorem C10_all_shadowed :
    (∀ (book : Book) (phone : String), phoneMatches phone = true →
      dictGet book "all" = none →
      add_contact book "all" phone = Except.ok (book ++ [("all", phone)])) ∧
    (∀ book : Book, show_phone book "all" =
      (if book = [] then Except.ok "You do not have any contacts yet."
       else Except.ok (String.join (book.map entryLine)))) ∧
    (∀ (book : Book) (p : String), dictGet book "all" = some p →
      show_phone book "all" ≠ Except.ok p) := by
  refine ⟨?_, ?_, ?_⟩
  · intro book phone h1 h2
    exact add_contact_inserts book "all" phone h1 h2
  · intro book
    by_cases hb : book = []
    · subst hb
      rfl
    · unfold show_phone
      rw [if_pos rfl, if_pos hb, if_neg hb, showAllLoop_eq_join]
  · intro book p hget hshow
    have hmem : ("all", p) ∈ book := dictGet_mem book "all" p hget
    have hb : book ≠ [] := by
      intro h
      rw [h] at hmem
      exact absurd hmem (List.not_mem_nil _)
    unfold show_phone at hshow
    rw [if_pos rfl, if_pos hb, showAllLoop_eq_join] at hshow
    have hj : String.join (book.map entryLine) = p := Except.ok.inj hshow
    have hle : (entryLine ("all", p)).length ≤
        (String.join (book.map entryLine)).length :=
      length_le_join _ _ (List.mem_map_of_mem entryLine hmem)
    have hgt : p.length < (entryLine ("all", p)).length :=
      entryLine_length_gt ("all", p)
    rw [hj] at hle
    omega

/-- Witness for C10: the contact named `all` is inserted like any other, and
its stored phone is not what `show_phone("all")` returns. -/
theorem C10_witness :
    add_contact [] "all" "1234567890" = Except.ok [("all", "1234567890")] ∧
    show_phone [("all", "1234567890")] "all" ≠ Except.ok "1234567890" :=
  ⟨C10_all_shadowed.1 [] "1234567890" rfl rfl,
   C10_all_shadowed.2.2 [("all", "1234567890")] "1234567890" rfl⟩

end CliBot
